import Mathlib

/-
Verification development for the Bravia TV update coordinator
(custom_components/braviatv/coordinator.py).

The coordinator is embedded shallowly: the mutable coordinator object becomes
an explicit state record threaded through pure functions, the asynchronous
device client becomes a record of per-query results (success value or raised
error), and imperative command methods become functions producing the trace of
device calls they issue together with the exception, if any, that escapes to
the caller.  Python dict payloads become records of optional fields, where
none models an absent key and some "" models a key present with an empty
string, so Python truthiness is representable.
-/

namespace Bravia

/-- Python truthiness of an optional string value: truthy iff present and
nonempty. -/
def truthy : Option String → Bool
  | none => false
  | some s => s != ""

/-- The Python expression a or b over optional string values. -/
def pyOr (a b : Option String) : Option String :=
  if truthy a then a else b

/-- Models str.lower (faithful on ASCII, which is what Char.toLower handles). -/
def lowerStr (s : String) : String :=
  String.mk (s.data.map Char.toLower)

/-- q occurs as a contiguous sublist of t; helper for the Python substring
test.  An empty q is contained in everything, like Python. -/
def listContainsSub (q : List Char) : List Char → Bool
  | [] => q.isEmpty
  | c :: t => q.isPrefixOf (c :: t) || listContainsSub q t

/-- Models the Python expression q in t on strings. -/
def strContains (t q : String) : Bool :=
  listContainsSub q.data t.data

/-- Models str.startswith. -/
def strStartsWith (s p : String) : Bool :=
  p.data.isPrefixOf s.data

/-- Models str.isnumeric: nonempty and all digits (faithful for ASCII). -/
def isNumericStr (s : String) : Bool :=
  !s.data.isEmpty && s.data.all Char.isDigit

/-- Source kinds, from const.SourceType (a string-valued enum; the file
const.py is not under src/, the values are the lowercase kind names used by
the media-player layer). -/
inductive SourceType
  | input
  | app
  | channel
deriving DecidableEq

/-- The string value of a source kind, used where Python compares the enum
with a plain string. -/
def SourceType.val : SourceType → String
  | .input => "input"
  | .app => "app"
  | .channel => "channel"

/-- The media content types the coordinator assigns (homeassistant MediaType
values "app" and "channel"). -/
inductive MediaType
  | app
  | channel
deriving DecidableEq

/-- A raw source catalog item as returned by the device client: the dict keys
the coordinator reads. -/
structure SourceItem where
  title : Option String
  label : Option String
  uri : Option String
  dispNum : Option String
deriving DecidableEq

/-- A stored catalog entry: the raw item plus the "type" key added at
insertion, modelling the dict union in _sources_extend. -/
structure CatalogEntry where
  item : SourceItem
  type : SourceType
deriving DecidableEq

/-- Python dict assignment m[k] = v on an insertion-ordered association list:
replace in place when the key exists, else append. -/
def dictInsert (m : List (String × CatalogEntry)) (k : String) (v : CatalogEntry) :
    List (String × CatalogEntry) :=
  if m.any (fun p => p.1 == k) then
    m.map (fun p => if p.1 == k then (k, v) else p)
  else
    m ++ [(k, v)]

/-- Python dict lookup m.get(k): the first (hence unique) binding of k. -/
def mapGet? (m : List (String × CatalogEntry)) (k : String) : Option CatalogEntry :=
  (m.find? (fun p => p.1 == k)).map Prod.snd

/-- The now-playing payload: the dict keys read by async_update_playing.
startDateTime abstracts the ISO-8601 timestamp as epoch seconds; extraKeys
records whether the raw dict carries any key this function does not read, so
dict emptiness is representable. -/
structure PlayingInfo where
  title : Option String
  uri : Option String
  label : Option String
  dispNum : Option String
  programTitle : Option String
  durationSec : Option Int
  startDateTime : Option Int
  extraKeys : Bool
deriving DecidableEq

/-- The Python test "not playing_info" on the raw dict: no keys at all. -/
def PlayingInfo.isEmpty (p : PlayingInfo) : Bool :=
  p.title.isNone && p.uri.isNone && p.label.isNone && p.dispNum.isNone &&
  p.programTitle.isNone && p.durationSec.isNone && p.startDateTime.isNone &&
  !p.extraKeys

/-- The volume payload: keys read by async_update_volume.  The wire volume is
an integer 0-100. -/
structure VolumeInfo where
  volume : Option Int
  mute : Option Bool
  target : Option String
deriving DecidableEq

/-- The mutable coordinator state (the fields of BraviaTVCoordinator mutated
by the refresh cycle), as an explicit record. -/
structure Coordinator where
  system_info : List (String × String)
  source : Option String
  source_list : List String
  source_map : List (String × CatalogEntry)
  media_title : Option String
  media_channel : Option String
  media_content_id : Option String
  media_content_type : Option MediaType
  media_uri : Option String
  media_duration : Option Int
  media_position : Option Int
  media_position_updated_at : Option Int
  volume_level : Option ℚ
  volume_target : Option String
  volume_muted : Bool
  is_on : Bool
  connected : Bool
  skipped_updates : Nat
  enable_user_labels : Bool
deriving DecidableEq

/-- The state established by the constructor (enable_user_labels defaults to
True in the options). -/
def initialState : Coordinator where
  system_info := []
  source := none
  source_list := []
  source_map := []
  media_title := none
  media_channel := none
  media_content_id := none
  media_content_type := none
  media_uri := none
  media_duration := none
  media_position := none
  media_position_updated_at := none
  volume_level := none
  volume_target := none
  volume_muted := false
  is_on := false
  connected := false
  skipped_updates := 0
  enable_user_labels := true

/-- The display-title resolution shared by _sources_extend and
async_source_find: the label overrides the title when user labels are enabled
and the label is truthy. -/
def resolveTitle (en : Bool) (item : SourceItem) : Option String :=
  if en && truthy item.label then item.label else item.title

/-- One iteration of the loop body of _sources_extend: skip entries without a
truthy resolved title or uri, index the entry by uri, and, when requested,
append the resolved title to source_list unless already present. -/
def extendOne (source_type : SourceType) (add_to_list : Bool)
    (s : Coordinator) (item : SourceItem) : Coordinator :=
  let title := resolveTitle s.enable_user_labels item
  if truthy title && truthy item.uri then
    let s1 := { s with
      source_map := dictInsert s.source_map (item.uri.getD "") ⟨item, source_type⟩ }
    if add_to_list && !(s1.source_list.contains (title.getD "")) then
      { s1 with source_list := s1.source_list ++ [title.getD ""] }
    else s1
  else s

/-- The stable sort applied when _sources_extend is called with
sort_by="title" (the only sort key the source uses): sorted(sources,
key=lambda d: d.get("title", "")).  Python's sorted is a stable sort by a
total preorder, and all stable sorts agree, so a stable insertion sort is an
exact model. -/
def sortByTitle (sources : List SourceItem) : List SourceItem :=
  sources.insertionSort (fun a b => (a.title.getD "") ≤ (b.title.getD ""))

/-- BraviaTVCoordinator._sources_extend. -/
def _sources_extend (s : Coordinator) (sources : List SourceItem)
    (source_type : SourceType) (add_to_list : Bool) (sort_by_title : Bool) :
    Coordinator :=
  let srcs := if sort_by_title then sortByTitle sources else sources
  srcs.foldl (extendOne source_type add_to_list) s

/-- BraviaTVCoordinator.async_update_volume, as a function of the volume
payload the client returned.  A payload without a volume value leaves the
state untouched. -/
def async_update_volume (vi : VolumeInfo) (s : Coordinator) : Coordinator :=
  match vi.volume with
  | none => s
  | some v =>
    { s with
      volume_level := some ((v : ℚ) / 100)
      volume_muted := vi.mute.getD false
      volume_target := vi.target }

/-- BraviaTVCoordinator.async_update_playing, as a function of the
now-playing payload and the current wall-clock time in epoch seconds (the
position computation truncates to whole seconds in the source; it is
modelled here directly on integer seconds). -/
def async_update_playing (p : PlayingInfo) (now : Int) (s0 : Coordinator) :
    Coordinator :=
  let s := { s0 with
    media_title := p.title
    media_uri := p.uri
    media_duration := p.durationSec
    media_channel := none
    media_content_id := none
    media_content_type := none
    source := none }
  let s := match p.startDateTime with
    | some start =>
      { s with
        media_position := some (now - start)
        media_position_updated_at := some now }
    | none =>
      { s with media_position := none, media_position_updated_at := none }
  if p.isEmpty then
    { s with media_title := some "Smart TV", media_content_type := some MediaType.app }
  else
    let s := if truthy p.uri then { s with media_content_id := p.uri } else s
    if truthy p.uri && strStartsWith (p.uri.getD "") "extInput" then
      let label0 : Option String :=
        if s.enable_user_labels then
          match p.uri with
          | some u => (mapGet? s.source_map u).bind (fun e => e.item.label)
          | none => none
        else none
      let label1 := if truthy label0 then label0 else p.label
      if truthy label1 then
        { s with source := label1, media_title := label1 }
      else
        { s with source := p.title, media_title := p.title }
    else if truthy p.uri && strStartsWith (p.uri.getD "") "tv" then
      let cid := p.dispNum
      { s with
        media_content_id := cid
        media_title := pyOr p.programTitle cid
        media_channel := pyOr p.title cid
        media_content_type := some MediaType.channel }
    else
      let label0 := p.label
      let label1 :=
        if s.enable_user_labels then
          match p.uri with
          | some u =>
            match mapGet? s.source_map u with
            | some e =>
              match e.item.label with
              | some v => some v
              | none => label0
            | none => label0
          | none => label0
        else label0
      if truthy label1 then
        { s with source := label1, media_title := label1 }
      else if truthy p.title then
        { s with source := p.title, media_title := p.title }
      else s

/-- The pybravia error taxonomy: every constructor is a subclass of
BraviaError; the first five are the specifically-caught subclasses and
otherError stands for any other BraviaError subclass. -/
inductive BraviaErr
  | authError
  | connectionError
  | connectionTimeout
  | notFound
  | turnedOff
  | otherError
deriving DecidableEq

/-- Exceptions that cross function boundaries in the embedded code. -/
inductive PyExc
  | braviaErr (e : BraviaErr)
  | configEntryAuthFailed
  | valueError (msg : String)
deriving DecidableEq

/-- One refresh cycle's view of the device client: the result each query
would produce if made (a value, or the typed error it raises). -/
structure Client where
  connectRes : Except BraviaErr Unit
  powerStatusRes : Except BraviaErr String
  systemInfoRes : Except BraviaErr (List (String × String))
  volumeInfoRes : Except BraviaErr VolumeInfo
  playingInfoRes : Except BraviaErr PlayingInfo
  externalStatusRes : Except BraviaErr (List SourceItem)
  appListRes : Except BraviaErr (List SourceItem)
  contentListRes : Except BraviaErr (List SourceItem)

/-- The connect block of _async_update_data: only runs when not connected;
BraviaAuthError is re-raised as ConfigEntryAuthFailed, any other client error
propagates as itself. -/
def connectStep (c : Client) (s : Coordinator) : Coordinator × Option PyExc :=
  if s.connected then (s, none)
  else
    match c.connectRes with
    | .ok _ => ({ s with connected := true }, none)
    | .error .authError => (s, some .configEntryAuthFailed)
    | .error e => (s, some (.braviaErr e))

/-- BraviaTVCoordinator.async_update_sources, threading the three client
queries: state mutated before a failing query persists, and the error
propagates. -/
def updateSourcesStep (c : Client) (s : Coordinator) : Coordinator × Option PyExc :=
  let s := { s with source_list := [], source_map := [] }
  match c.externalStatusRes with
  | .error e => (s, some (.braviaErr e))
  | .ok inputs =>
    let s := _sources_extend s inputs SourceType.input true false
    match c.appListRes with
    | .error e => (s, some (.braviaErr e))
    | .ok apps =>
      let s := _sources_extend s apps SourceType.app false true
      match c.contentListRes with
      | .error e => (s, some (.braviaErr e))
      | .ok channels => (_sources_extend s channels SourceType.channel false false, none)

/-- The body of the outer try block of _async_update_data: connect if needed,
query power, reset the skip counter, fetch system info once, and when the set
is on refresh sources (only when the catalog is empty), volume and playing
state.  Returns the state as mutated so far and the exception, if any, that
reached the outer handlers. -/
def updateBody (c : Client) (now : Int) (s0 : Coordinator) :
    Coordinator × Option PyExc :=
  match connectStep c s0 with
  | (s, some e) => (s, some e)
  | (s, none) =>
    match c.powerStatusRes with
    | .error e => (s, some (.braviaErr e))
    | .ok power_status =>
      let s := { s with is_on := power_status == "active", skipped_updates := 0 }
      let sysStep : Coordinator × Option PyExc :=
        if s.system_info.isEmpty then
          match c.systemInfoRes with
          | .error e => (s, some (.braviaErr e))
          | .ok info => ({ s with system_info := info }, none)
        else (s, none)
      match sysStep with
      | (s, some e) => (s, some e)
      | (s, none) =>
        if !s.is_on then (s, none)
        else
          let srcStep :=
            if s.source_map.isEmpty then updateSourcesStep c s else (s, none)
          match srcStep with
          | (s, some e) => (s, some e)
          | (s, none) =>
            match c.volumeInfoRes with
            | .error e => (s, some (.braviaErr e))
            | .ok vi =>
              let s := async_update_volume vi s
              match c.playingInfoRes with
              | .error e => (s, some (.braviaErr e))
              | .ok pi => (async_update_playing pi now s, none)

/-- How one refresh cycle terminates, as seen by the host scheduler.
uncaught records an exception no handler matches (cannot arise from
updateBody, which only raises Bravia errors and the auth signal). -/
inductive UpdateOutcome
  | ok
  | authFailed
  | updateFailed
  | uncaught (e : PyExc)
deriving DecidableEq

/-- BraviaTVCoordinator._async_update_data: the body plus the outer exception
handlers, in source order (BraviaNotFound first, then the off/unreachable
trio, then the BraviaError catch-all). -/
def _async_update_data (c : Client) (now : Int) (s0 : Coordinator) :
    Coordinator × UpdateOutcome :=
  match updateBody c now s0 with
  | (s, none) => (s, .ok)
  | (s, some .configEntryAuthFailed) => (s, .authFailed)
  | (s, some (.braviaErr .notFound)) =>
    if s.skipped_updates < 10 then
      ({ s with connected := false, skipped_updates := s.skipped_updates + 1 }, .ok)
    else (s, .updateFailed)
  | (s, some (.braviaErr .connectionError)) =>
    ({ s with is_on := false, connected := false }, .ok)
  | (s, some (.braviaErr .connectionTimeout)) =>
    ({ s with is_on := false, connected := false }, .ok)
  | (s, some (.braviaErr .turnedOff)) =>
    ({ s with is_on := false, connected := false }, .ok)
  | (s, some (.braviaErr _)) =>
    ({ s with is_on := false, connected := false }, .updateFailed)
  | (s, some e) => (s, .uncaught e)

/-- The calls a command can issue to the device client. -/
inductive DeviceCall
  | turnOn
  | turnOff
  | volumeLevelCall (v : Int)
  | volumeUp
  | volumeDown
  | volumeMute
  | play
  | pause
  | stop
  | channelUp
  | channelDown
  | nextTrack
  | previousTrack
  | setActiveApp (uri : String)
  | setPlayContent (uri : String)
  | sendCommand (cmd : String)
  | reboot
  | terminateApps
deriving DecidableEq

/-- BraviaTVCoordinator.async_source_start: apps start via set_active_app,
everything else via set_play_content.  The kind is passed as its string value
because callers hand in either the SourceType enum or a MediaType string,
compared by value. -/
def async_source_start (uri : String) (source_type : String) : DeviceCall :=
  if source_type == "app" then .setActiveApp uri else .setPlayContent uri

/-- How async_source_find terminates: a dispatched device call, or the
ValueError raised when nothing matches. -/
inductive FindResult
  | dispatch (call : DeviceCall)
  | notFound (source_type : String) (query : String)
deriving DecidableEq

/-- How the scan loop of async_source_find terminates: an early return with a
uri, or loop exhaustion with the final coarse_uri value. -/
inductive ScanOut
  | early (uri : String)
  | done (coarse : Option String)
deriving DecidableEq

/-- The display title async_source_find compares against the query for a
stored catalog entry: the same label-over-title resolution as at catalog
build.  A catalog built by _sources_extend only holds entries whose resolved
title is truthy, so the defaulting never fires on real catalogs (in Python a
missing title here would be a crash, not a comparison). -/
def scanTitle (en : Bool) (e : CatalogEntry) : String :=
  (resolveTitle en e.item).getD ""

/-- The scan loop of async_source_find over the catalog, threading coarse_uri.
In the numeric branch the source compares int(query) with int(num); num
failing to parse (which would raise in Python) is modelled as a non-match. -/
def findScan (en : Bool) (q source_type : String) (numeric : Bool) :
    List (String × CatalogEntry) → Option String → ScanOut
  | [], coarse => .done coarse
  | (uri, e) :: rest, coarse =>
    if e.type.val == source_type then
      if numeric then
        match e.item.dispNum with
        | some num =>
          if num != "" && num.toNat? == q.toNat? && (q.toNat?).isSome then
            ScanOut.early uri
          else findScan en q source_type numeric rest coarse
        | none => findScan en q source_type numeric rest coarse
      else
        if lowerStr q == lowerStr (scanTitle en e) then ScanOut.early uri
        else if strContains (lowerStr (scanTitle en e)) (lowerStr q) then
          findScan en q source_type numeric rest (some uri)
        else findScan en q source_type numeric rest coarse
    else findScan en q source_type numeric rest coarse

/-- BraviaTVCoordinator.async_source_find. -/
def async_source_find (s : Coordinator) (query source_type : String) : FindResult :=
  if strStartsWith query "extInput:" || strStartsWith query "tv:" ||
      strStartsWith query "com.sony.dtv." then
    .dispatch (async_source_start query source_type)
  else
    let numeric := source_type == "channel" && isNumericStr query
    match findScan s.enable_user_labels query source_type numeric s.source_map none with
    | .early uri => .dispatch (async_source_start uri source_type)
    | .done coarse =>
      if truthy coarse then .dispatch (async_source_start (coarse.getD "") source_type)
      else .notFound source_type query

/-- The observable result of one wrapped command invocation: the device calls
issued, how many on-demand refreshes were requested, and the exception, if
any, that escaped to the caller. -/
structure CmdResult where
  calls : List DeviceCall
  refreshes : Nat
  exc : Option PyExc
deriving DecidableEq

/-- Issue a sequence of client calls under a device behavior assigning each
call its raised error, if any; stops at the first raise. -/
def runCalls (beh : DeviceCall → Option BraviaErr) :
    List DeviceCall → List DeviceCall × Option PyExc
  | [] => ([], none)
  | c :: rest =>
    match beh c with
    | some e => ([c], some (.braviaErr e))
    | none =>
      let r := runCalls beh rest
      (c :: r.1, r.2)

/-- The catch_braviatv_errors decorator: run the body; a BraviaError is
caught and logged; the request_refresh after the try block runs exactly when
no other exception escaped the body. -/
def catch_braviatv_errors (body : List DeviceCall × Option PyExc) : CmdResult :=
  match body.2 with
  | none => ⟨body.1, 1, none⟩
  | some (.braviaErr _) => ⟨body.1, 1, none⟩
  | some e => ⟨body.1, 0, some e⟩

/-- BraviaTVCoordinator.async_turn_on. -/
def async_turn_on (beh : DeviceCall → Option BraviaErr) : CmdResult :=
  catch_braviatv_errors (runCalls beh [.turnOn])

/-- BraviaTVCoordinator.async_turn_off. -/
def async_turn_off (beh : DeviceCall → Option BraviaErr) : CmdResult :=
  catch_braviatv_errors (runCalls beh [.turnOff])

/-- BraviaTVCoordinator.async_volume_mute: the body calls
client.volume_mute() unconditionally, ignoring the mute argument. -/
def async_volume_mute (beh : DeviceCall → Option BraviaErr) (mute : Bool) :
    CmdResult :=
  catch_braviatv_errors (runCalls beh [.volumeMute])

/-- The shared tail of play_media and select_source: resolve the query and
dispatch, or let the resolver's ValueError escape. -/
def sourceFindBody (beh : DeviceCall → Option BraviaErr) (s : Coordinator)
    (query source_type : String) : List DeviceCall × Option PyExc :=
  match async_source_find s query source_type with
  | .dispatch call => runCalls beh [call]
  | .notFound st q => ([], some (.valueError ("Not found " ++ st ++ ": " ++ q)))

/-- The body of BraviaTVCoordinator.async_play_media: reject media types
other than APP and CHANNEL with a ValueError, else resolve and start. -/
def async_play_media_body (beh : DeviceCall → Option BraviaErr) (s : Coordinator)
    (media_type media_id : String) : List DeviceCall × Option PyExc :=
  if !(media_type == "app" || media_type == "channel") then
    ([], some (.valueError ("Invalid media type: " ++ media_type)))
  else
    sourceFindBody beh s media_id media_type

/-- BraviaTVCoordinator.async_play_media with its decorator. -/
def async_play_media (beh : DeviceCall → Option BraviaErr) (s : Coordinator)
    (media_type media_id : String) : CmdResult :=
  catch_braviatv_errors (async_play_media_body beh s media_type media_id)

/-- BraviaTVCoordinator.async_select_source with its decorator. -/
def async_select_source (beh : DeviceCall → Option BraviaErr) (s : Coordinator)
    (source : String) : CmdResult :=
  catch_braviatv_errors (sourceFindBody beh s source "input")

/-! ## Helper lemmas -/

theorem truthy_some_iff (sv : String) : truthy (some sv) = true ↔ sv ≠ "" := by
  simp [truthy]

theorem truthy_eq_true_iff (o : Option String) :
    truthy o = true ↔ ∃ sv, o = some sv ∧ sv ≠ "" := by
  cases o <;> simp [truthy]

/-! ## Concrete data used by witnesses and counterexamples -/

/-- The empty now-playing payload. -/
def emptyPlaying : PlayingInfo :=
  ⟨none, none, none, none, none, none, none, false⟩

/-- A prior state with channel content populated, as left by a previous
broadcast-channel cycle. -/
def channelPriorState : Coordinator :=
  { initialState with
    media_title := some "Old Program"
    media_channel := some "Old Channel"
    media_content_id := some "7"
    media_content_type := some MediaType.channel
    source := some "Old Channel"
    media_uri := some "tv:dvbt" }

/-- The spec's broadcast-channel example payload. -/
def tvExamplePayload : PlayingInfo :=
  ⟨some "NewsCh", some "tv:dvbt", none, some "5", some "Evening News", none, none, false⟩

/-- A client whose power query raises BraviaNotFound and whose other queries
would succeed. -/
def clientNotFound : Client where
  connectRes := .ok ()
  powerStatusRes := .error .notFound
  systemInfoRes := .ok []
  volumeInfoRes := .ok ⟨none, none, none⟩
  playingInfoRes := .ok emptyPlaying
  externalStatusRes := .ok []
  appListRes := .ok []
  contentListRes := .ok []

/-- A connected state with nine consecutive skipped updates. -/
def stateSkipped9 : Coordinator :=
  { initialState with connected := true, skipped_updates := 9 }

/-- A connected state with ten consecutive skipped updates. -/
def stateSkipped10 : Coordinator :=
  { initialState with connected := true, skipped_updates := 10 }

/-! ## Claim theorems -/

/-- Claim C8: a volume payload without a volume value leaves volume_level,
volume_muted and volume_target unchanged; a payload with volume v sets
volume_level to v normalized from the 0-100 wire scale into 0-1, volume_muted
to the mute field defaulting to false, and volume_target to the target
field. -/
theorem async_update_volume_spec (vi : VolumeInfo) (s : Coordinator) :
    (vi.volume = none → async_update_volume vi s = s)
    ∧ (∀ v : Int, vi.volume = some v →
        async_update_volume vi s =
          { s with
            volume_level := some ((v : ℚ) / 100)
            volume_muted := vi.mute.getD false
            volume_target := vi.target }) := by
  constructor
  · intro h
    simp [async_update_volume, h]
  · intro v h
    simp [async_update_volume, h]

/-- Witness for C8 at the spec's round-trip value 37. -/
theorem async_update_volume_witness :
    (⟨some 37, none, some "speaker"⟩ : VolumeInfo).volume = some 37
    ∧ async_update_volume ⟨some 37, none, some "speaker"⟩ initialState =
        { initialState with
          volume_level := some ((37 : ℚ) / 100)
          volume_muted := (none : Option Bool).getD false
          volume_target := some "speaker" } :=
  ⟨rfl, (async_update_volume_spec ⟨some 37, none, some "speaker"⟩ initialState).2 37 rfl⟩

/-- Claim C9: async_volume_mute ignores its boolean argument; for any two
argument values the command behaves identically, and the device call issued
is the unconditional mute toggle. -/
theorem async_volume_mute_ignores_argument (beh : DeviceCall → Option BraviaErr)
    (m1 m2 : Bool) :
    async_volume_mute beh m1 = async_volume_mute beh m2
    ∧ (async_volume_mute beh m1).calls = [DeviceCall.volumeMute] := by
  refine ⟨rfl, ?_⟩
  cases h : beh DeviceCall.volumeMute <;>
    simp [async_volume_mute, runCalls, catch_braviatv_errors, h]

/-- Claim C3: the catch_braviatv_errors decorator, around any wrapped command
body that either succeeds or raises a device-API BraviaError, swallows the
error (nothing escapes to the caller) and requests exactly one on-demand
refresh after the body completes; the device calls issued are the body's.
All imperative commands (power, volume, transport, source selection, play
media, raw remote codes, reboot, terminate apps) are wrapped this way. -/
theorem catch_braviatv_errors_spec (body : List DeviceCall × Option PyExc)
    (h : body.2 = none ∨ ∃ e, body.2 = some (PyExc.braviaErr e)) :
    (catch_braviatv_errors body).exc = none
    ∧ (catch_braviatv_errors body).refreshes = 1
    ∧ (catch_braviatv_errors body).calls = body.1 := by
  obtain h | ⟨e, h⟩ := h <;> simp [catch_braviatv_errors, h]

/-- Witness for C3: a turn-on command whose device call raises a generic
BraviaError. -/
theorem catch_braviatv_errors_witness :
    ((([DeviceCall.turnOn], some (PyExc.braviaErr BraviaErr.otherError)) :
        List DeviceCall × Option PyExc).2 = none
      ∨ ∃ e, (([DeviceCall.turnOn], some (PyExc.braviaErr BraviaErr.otherError)) :
        List DeviceCall × Option PyExc).2 = some (PyExc.braviaErr e))
    ∧ (catch_braviatv_errors
          ([DeviceCall.turnOn], some (PyExc.braviaErr BraviaErr.otherError))).exc = none
    ∧ (catch_braviatv_errors
          ([DeviceCall.turnOn], some (PyExc.braviaErr BraviaErr.otherError))).refreshes = 1
    ∧ (catch_braviatv_errors
          ([DeviceCall.turnOn], some (PyExc.braviaErr BraviaErr.otherError))).calls =
        ([DeviceCall.turnOn], some (PyExc.braviaErr BraviaErr.otherError)).1 := by
  refine ⟨Or.inr ⟨BraviaErr.otherError, rfl⟩, ?_⟩
  exact catch_braviatv_errors_spec _ (Or.inr ⟨BraviaErr.otherError, rfl⟩)

/-- Claim C10: async_play_media with a media type that is neither APP nor
CHANNEL raises a ValueError that propagates past the decorator, with no
device call issued and no refresh requested; likewise when source resolution
fails with its not-found ValueError. -/
theorem async_play_media_value_error_propagates
    (beh : DeviceCall → Option BraviaErr) (s : Coordinator)
    (media_type media_id : String) :
    ((media_type == "app" || media_type == "channel") = false →
      async_play_media beh s media_type media_id =
        ⟨[], 0, some (PyExc.valueError ("Invalid media type: " ++ media_type))⟩)
    ∧ (∀ st q, (media_type == "app" || media_type == "channel") = true →
        async_source_find s media_id media_type = FindResult.notFound st q →
        async_play_media beh s media_type media_id =
          ⟨[], 0, some (PyExc.valueError ("Not found " ++ st ++ ": " ++ q))⟩) := by
  constructor
  · intro h
    simp [async_play_media, async_play_media_body, h, catch_braviatv_errors]
  · intro st q h hf
    simp [async_play_media, async_play_media_body, h, sourceFindBody, hf,
      catch_braviatv_errors]

/-- Witness for C10: an invalid media type and a not-found channel query,
both against the empty catalog. -/
theorem async_play_media_value_error_witness :
    (("movie" == "app" || "movie" == "channel") = false
      ∧ async_play_media (fun _ => none) initialState "movie" "x" =
          ⟨[], 0, some (PyExc.valueError ("Invalid media type: " ++ "movie"))⟩)
    ∧ (("app" == "app" || "app" == "channel") = true
      ∧ async_source_find initialState "Netflix" "app" =
          FindResult.notFound "app" "Netflix"
      ∧ async_play_media (fun _ => none) initialState "app" "Netflix" =
          ⟨[], 0, some (PyExc.valueError ("Not found " ++ "app" ++ ": " ++ "Netflix"))⟩) := by
  refine ⟨⟨by decide, ?_⟩, by decide, by decide, ?_⟩
  · exact (async_play_media_value_error_propagates (fun _ => none) initialState
      "movie" "x").1 (by decide)
  · exact (async_play_media_value_error_propagates (fun _ => none) initialState
      "app" "Netflix").2 "app" "Netflix" (by decide) (by decide)

/-- Claim C6: on an empty now-playing payload the deriver resets channel,
content-id, content-type and source to unset regardless of the prior
snapshot, clears position, and falls back to the fixed home-screen title
"Smart TV" with content type APP, returning before any uri branch. -/
theorem async_update_playing_empty (p : PlayingInfo) (now : Int) (s : Coordinator)
    (h : p.isEmpty = true) :
    async_update_playing p now s =
      { s with
        media_title := some "Smart TV"
        media_uri := none
        media_duration := none
        media_channel := none
        media_content_id := none
        media_content_type := some MediaType.app
        source := none
        media_position := none
        media_position_updated_at := none } := by
  cases p with
  | mk t u l d pr ds sd ek =>
    simp only [PlayingInfo.isEmpty, Bool.and_eq_true, Option.isNone_iff_eq_none,
      Bool.not_eq_true'] at h
    obtain ⟨⟨⟨⟨⟨⟨⟨ht, hu⟩, hl⟩, hd⟩, hpr⟩, hds⟩, hsd⟩, hek⟩ := h
    subst ht hu hl hd hpr hds hsd hek
    rfl

/-- Witness for C6: the empty payload against a prior state with channel
content populated. -/
theorem async_update_playing_empty_witness :
    emptyPlaying.isEmpty = true
    ∧ async_update_playing emptyPlaying 0 channelPriorState =
        { channelPriorState with
          media_title := some "Smart TV"
          media_uri := none
          media_duration := none
          media_channel := none
          media_content_id := none
          media_content_type := some MediaType.app
          source := none
          media_position := none
          media_position_updated_at := none } :=
  ⟨rfl, async_update_playing_empty emptyPlaying 0 channelPriorState rfl⟩

/-- Claim C2: in a refresh cycle whose body raises BraviaNotFound, if
skipped_updates (as mutated so far in the cycle) is below 10 the handler sets
connected to false, increments skipped_updates by exactly one and returns
normally; at 10 or more it surfaces an update failure. -/
theorem notfound_cycle_spec (c : Client) (now : Int) (s0 s1 : Coordinator)
    (h : updateBody c now s0 = (s1, some (PyExc.braviaErr BraviaErr.notFound))) :
    (s1.skipped_updates < 10 →
      _async_update_data c now s0 =
        ({ s1 with connected := false, skipped_updates := s1.skipped_updates + 1 },
          UpdateOutcome.ok))
    ∧ (10 ≤ s1.skipped_updates →
      _async_update_data c now s0 = (s1, UpdateOutcome.updateFailed)) := by
  constructor
  · intro hlt
    simp [_async_update_data, h, hlt]
  · intro hge
    simp [_async_update_data, h, Nat.not_lt.mpr hge]

/-- Witness for C2: a not-found power query with nine prior skips is
swallowed, leaving ten skips and connected false. -/
theorem notfound_cycle_witness :
    updateBody clientNotFound 0 stateSkipped9 =
      (stateSkipped9, some (PyExc.braviaErr BraviaErr.notFound))
    ∧ stateSkipped9.skipped_updates < 10
    ∧ _async_update_data clientNotFound 0 stateSkipped9 =
        ({ stateSkipped9 with
            connected := false
            skipped_updates := stateSkipped9.skipped_updates + 1 },
          UpdateOutcome.ok) := by
  refine ⟨by decide, by decide, ?_⟩
  exact (notfound_cycle_spec clientNotFound 0 stateSkipped9 stateSkipped9
    (by decide)).1 (by decide)

/-- A uri with the tv prefix never has the extInput prefix, so the tv branch
is reachable whenever the uri starts with tv. -/
theorem startsWith_tv_not_extInput (u : String) (h : strStartsWith u "tv" = true) :
    strStartsWith u "extInput" = false := by
  unfold strStartsWith at h ⊢
  have htv : "tv".data = ['t', 'v'] := rfl
  have hext : "extInput".data = ['e', 'x', 't', 'I', 'n', 'p', 'u', 't'] := rfl
  rw [htv] at h
  rw [hext]
  cases hu : u.data with
  | nil =>
    rw [hu] at h
    simp [List.isPrefixOf] at h
  | cons a tl =>
    rw [hu] at h
    simp only [List.isPrefixOf, Bool.and_eq_true, beq_iff_eq] at h
    obtain ⟨ha, -⟩ := h
    subst ha
    have he : (('e' : Char) == 't') = false := rfl
    simp [List.isPrefixOf, he]

/-- Claim C7: for a payload whose uri starts with the tv prefix, the deriver
sets content id to the display number, title to the program title or else the
display number, channel to the payload title or else the display number, and
content type CHANNEL. -/
theorem async_update_playing_tv (p : PlayingInfo) (now : Int) (s : Coordinator)
    (u : String) (hu : p.uri = some u) (hu0 : u ≠ "")
    (htv : strStartsWith u "tv" = true)
    (hne : p.isEmpty = false) :
    (async_update_playing p now s).media_content_id = p.dispNum
    ∧ (async_update_playing p now s).media_title = pyOr p.programTitle p.dispNum
    ∧ (async_update_playing p now s).media_channel = pyOr p.title p.dispNum
    ∧ (async_update_playing p now s).media_content_type = some MediaType.channel := by
  have hext := startsWith_tv_not_extInput u htv
  have htr : truthy p.uri = true := by
    rw [hu]
    exact (truthy_some_iff u).mpr hu0
  unfold async_update_playing
  cases hsd : p.startDateTime <;>
    simp [hne, hu, htr, hext, htv, hsd, truthy, hu0]

/-- Witness for C7: the spec's broadcast payload with display number 5,
channel NewsCh and program Evening News. -/
theorem async_update_playing_tv_witness :
    (tvExamplePayload.uri = some "tv:dvbt" ∧ ("tv:dvbt" : String) ≠ ""
      ∧ strStartsWith "tv:dvbt" "tv" = true ∧ tvExamplePayload.isEmpty = false)
    ∧ (async_update_playing tvExamplePayload 0 initialState).media_content_id = some "5"
    ∧ (async_update_playing tvExamplePayload 0 initialState).media_title =
        some "Evening News"
    ∧ (async_update_playing tvExamplePayload 0 initialState).media_channel =
        some "NewsCh"
    ∧ (async_update_playing tvExamplePayload 0 initialState).media_content_type =
        some MediaType.channel := by
  have h := async_update_playing_tv tvExamplePayload 0 initialState "tv:dvbt"
    rfl (by decide) (by decide) rfl
  exact ⟨⟨rfl, by decide, by decide, rfl⟩,
    h.1.trans rfl, h.2.1.trans rfl, h.2.2.1.trans rfl, h.2.2.2⟩

/-- Claim C5: for a catalog entry with a nonempty label, with user labels
enabled, every display-title lookup yields the label: the resolved title at
catalog build (and the title inserted into source_list), the title and source
the now-playing deriver assigns for that uri, and the title async_source_find
compares against the query. -/
theorem label_override_consistent
    (item : SourceItem) (l u : String) (st : SourceType)
    (p : PlayingInfo) (now : Int) (s : Coordinator)
    (hen : s.enable_user_labels = true)
    (hl : item.label = some l) (hl0 : l ≠ "")
    (hiu : item.uri = some u) (hu0 : u ≠ "")
    (hmap : mapGet? s.source_map u = some ⟨item, st⟩)
    (hpu : p.uri = some u)
    (hne : p.isEmpty = false)
    (htv : strStartsWith u "tv" = false) :
    resolveTitle s.enable_user_labels item = some l
    ∧ (∀ s2 : Coordinator, s2.enable_user_labels = true → l ∉ s2.source_list →
        (extendOne st true s2 item).source_list = s2.source_list ++ [l])
    ∧ (async_update_playing p now s).media_title = some l
    ∧ (async_update_playing p now s).source = some l
    ∧ scanTitle s.enable_user_labels ⟨item, st⟩ = l := by
  have hrt : resolveTitle s.enable_user_labels item = some l := by
    simp [resolveTitle, hen, hl, truthy, hl0]
  have htr : truthy p.uri = true := by
    rw [hpu]
    exact (truthy_some_iff u).mpr hu0
  refine ⟨hrt, ?_, ?_, ?_, ?_⟩
  · intro s2 hen2 hmem
    have hrt2 : resolveTitle s2.enable_user_labels item = some l := by
      simp [resolveTitle, hen2, hl, truthy, hl0]
    simp [extendOne, hrt2, hiu, truthy, hl0, hu0, List.contains, List.elem_eq_mem,
      hmem]
  · unfold async_update_playing
    cases hsd : p.startDateTime <;>
      cases hext : strStartsWith u "extInput" <;>
        simp [hne, hpu, htr, hext, htv, hen, hmap, hl, truthy, hl0, hsd, hu0]
  · unfold async_update_playing
    cases hsd : p.startDateTime <;>
      cases hext : strStartsWith u "extInput" <;>
        simp [hne, hpu, htr, hext, htv, hen, hmap, hl, truthy, hl0, hsd, hu0]
  · simp [scanTitle, hrt]

/-- A labelled HDMI input item, from the spec's example. -/
def hdmiItem : SourceItem :=
  ⟨some "HDMI 1", some "Game Console", some "extInput:hdmi?port=1", none⟩

/-- A now-playing payload for the labelled HDMI input. -/
def hdmiPlaying : PlayingInfo :=
  ⟨none, some "extInput:hdmi?port=1", none, none, none, none, none, false⟩

/-- A state whose catalog holds the labelled HDMI input. -/
def hdmiState : Coordinator :=
  { initialState with
    source_map := [("extInput:hdmi?port=1", ⟨hdmiItem, SourceType.input⟩)] }

/-- Witness for C5: the Game Console label wins at catalog build, in the
deriver, and as the find-time comparison title. -/
theorem label_override_witness :
    (hdmiState.enable_user_labels = true
      ∧ hdmiItem.label = some "Game Console" ∧ ("Game Console" : String) ≠ ""
      ∧ hdmiItem.uri = some "extInput:hdmi?port=1"
      ∧ ("extInput:hdmi?port=1" : String) ≠ ""
      ∧ mapGet? hdmiState.source_map "extInput:hdmi?port=1" =
          some ⟨hdmiItem, SourceType.input⟩
      ∧ hdmiPlaying.uri = some "extInput:hdmi?port=1"
      ∧ hdmiPlaying.isEmpty = false
      ∧ strStartsWith "extInput:hdmi?port=1" "tv" = false)
    ∧ resolveTitle hdmiState.enable_user_labels hdmiItem = some "Game Console"
    ∧ (extendOne SourceType.input true initialState hdmiItem).source_list =
        initialState.source_list ++ ["Game Console"]
    ∧ (async_update_playing hdmiPlaying 0 hdmiState).media_title = some "Game Console"
    ∧ (async_update_playing hdmiPlaying 0 hdmiState).source = some "Game Console"
    ∧ scanTitle hdmiState.enable_user_labels ⟨hdmiItem, SourceType.input⟩ =
        "Game Console" := by
  have h := label_override_consistent hdmiItem "Game Console" "extInput:hdmi?port=1"
    SourceType.input hdmiPlaying 0 hdmiState rfl rfl (by decide) rfl (by decide)
    (by decide) rfl rfl (by decide)
  exact ⟨⟨rfl, rfl, by decide, rfl, by decide, by decide, rfl, rfl, by decide⟩,
    h.1, h.2.1 initialState rfl (by decide), h.2.2.1, h.2.2.2.1, h.2.2.2.2⟩

/-! ## Source-resolver characterization (C1) -/

/-- The last element of a list satisfying a predicate, if any: the value a
variable overwritten on every match holds when the loop ends. -/
def lastMatch (pr : (String × CatalogEntry) → Bool) :
    List (String × CatalogEntry) → Option (String × CatalogEntry)
  | [] => none
  | x :: rest =>
    match lastMatch pr rest with
    | some y => some y
    | none => if pr x then some x else none

/-- The entry is of the requested kind, as tested in the scan loop. -/
def kindMatches (source_type : String) (x : String × CatalogEntry) : Bool :=
  x.2.type.val == source_type

/-- The entry is of the requested kind and its display title equals the query
case-insensitively: the early-return test of the scan loop. -/
def isExactMatch (en : Bool) (q source_type : String) (x : String × CatalogEntry) :
    Bool :=
  kindMatches source_type x && (lowerStr q == lowerStr (scanTitle en x.2))

/-- The entry is of the requested kind, is not an exact match, and its display
title contains the query case-insensitively: the test that overwrites
coarse_uri. -/
def isSubMatch (en : Bool) (q source_type : String) (x : String × CatalogEntry) :
    Bool :=
  kindMatches source_type x && !(lowerStr q == lowerStr (scanTitle en x.2)) &&
  strContains (lowerStr (scanTitle en x.2)) (lowerStr q)

/-- The non-numeric scan loop returns early at the first exact match; failing
that it ends with coarse_uri holding the last substring match, or its initial
value when there is none. -/
theorem findScan_characterization (en : Bool) (q source_type : String) :
    ∀ (l : List (String × CatalogEntry)) (coarse : Option String),
      findScan en q source_type false l coarse =
        match l.find? (isExactMatch en q source_type) with
        | some x => ScanOut.early x.1
        | none =>
          ScanOut.done
            (match lastMatch (isSubMatch en q source_type) l with
             | some x => some x.1
             | none => coarse) := by
  intro l
  induction l with
  | nil => intro coarse; rfl
  | cons x rest ih =>
    intro coarse
    obtain ⟨uri, e⟩ := x
    cases hk : (e.type.val == source_type) with
    | false =>
      have hex : isExactMatch en q source_type (uri, e) = false := by
        simp [isExactMatch, kindMatches, hk]
      have hsub : isSubMatch en q source_type (uri, e) = false := by
        simp [isSubMatch, kindMatches, hk]
      simp only [findScan, hk, Bool.false_eq_true, if_false, List.find?_cons, hex,
        lastMatch, hsub]
      rw [ih]
      cases List.find? (isExactMatch en q source_type) rest with
      | some y => rfl
      | none =>
        cases lastMatch (isSubMatch en q source_type) rest with
        | some y => rfl
        | none => rfl
    | true =>
      cases hx : (lowerStr q == lowerStr (scanTitle en e)) with
      | true =>
        have hex : isExactMatch en q source_type (uri, e) = true := by
          simp [isExactMatch, kindMatches, hk, hx]
        simp only [findScan, hk, hx, if_true, Bool.false_eq_true, if_false,
          List.find?_cons, hex]
      | false =>
        have hex : isExactMatch en q source_type (uri, e) = false := by
          simp [isExactMatch, kindMatches, hk, hx]
        cases hs : strContains (lowerStr (scanTitle en e)) (lowerStr q) with
        | true =>
          have hsub : isSubMatch en q source_type (uri, e) = true := by
            simp [isSubMatch, kindMatches, hk, hx, hs]
          simp only [findScan, hk, hx, hs, if_true, if_false, Bool.false_eq_true,
            List.find?_cons, hex, lastMatch, hsub]
          rw [ih]
          cases List.find? (isExactMatch en q source_type) rest with
          | some y => rfl
          | none =>
            cases lastMatch (isSubMatch en q source_type) rest with
            | some y => rfl
            | none => rfl
        | false =>
          have hsub : isSubMatch en q source_type (uri, e) = false := by
            simp [isSubMatch, kindMatches, hk, hx, hs]
          simp only [findScan, hk, hx, hs, if_false, Bool.false_eq_true,
            List.find?_cons, hex, lastMatch, hsub]
          rw [ih]
          cases List.find? (isExactMatch en q source_type) rest with
          | some y => rfl
          | none =>
            cases lastMatch (isSubMatch en q source_type) rest with
            | some y => rfl
            | none => rfl

/-- Claim C1 (amended): for a non-uri, non-numeric query, an exact
case-insensitive display-title match is dispatched immediately, the first
exact match in catalog insertion order winning even when scanned after a
substring candidate; when no exact match exists, the entry dispatched is the
LAST substring match encountered in catalog insertion order (each substring
match overwrites the fallback candidate). -/
theorem async_source_find_resolution (s : Coordinator) (q source_type : String)
    (hpre : (strStartsWith q "extInput:" || strStartsWith q "tv:" ||
        strStartsWith q "com.sony.dtv.") = false)
    (hnum : (source_type == "channel" && isNumericStr q) = false) :
    (∀ x, s.source_map.find? (isExactMatch s.enable_user_labels q source_type) =
        some x →
      async_source_find s q source_type =
        FindResult.dispatch (async_source_start x.1 source_type))
    ∧ (s.source_map.find? (isExactMatch s.enable_user_labels q source_type) =
        none →
      ∀ x, lastMatch (isSubMatch s.enable_user_labels q source_type)
          s.source_map = some x →
      x.1 ≠ "" →
      async_source_find s q source_type =
        FindResult.dispatch (async_source_start x.1 source_type)) := by
  constructor
  · intro x hx
    unfold async_source_find
    rw [hpre, hnum]
    simp only [Bool.false_eq_true, if_false]
    rw [findScan_characterization, hx]
  · intro hnone x hlast hx0
    unfold async_source_find
    rw [hpre, hnum]
    simp only [Bool.false_eq_true, if_false]
    rw [findScan_characterization, hnone, hlast]
    simp [truthy, hx0]

/-- Catalog item whose title strictly contains the query news. -/
def anewsroomItem : SourceItem := ⟨some "Anewsroom", none, some "w1", none⟩

/-- Catalog item whose title is exactly News. -/
def newsItem : SourceItem := ⟨some "News", none, some "w2", none⟩

/-- A catalog scanning the substring candidate before the exact match. -/
def exactAfterSubState : Coordinator :=
  { initialState with
    source_map :=
      [("w1", ⟨anewsroomItem, SourceType.input⟩),
       ("w2", ⟨newsItem, SourceType.input⟩)] }

/-- Witness for C1: the exact match on News wins although the substring
candidate Anewsroom is scanned first. -/
theorem async_source_find_resolution_witness :
    ((strStartsWith "news" "extInput:" || strStartsWith "news" "tv:" ||
        strStartsWith "news" "com.sony.dtv.") = false
      ∧ ("input" == "channel" && isNumericStr "news") = false
      ∧ exactAfterSubState.source_map.find?
          (isExactMatch exactAfterSubState.enable_user_labels "news" "input") =
        some ("w2", ⟨newsItem, SourceType.input⟩))
    ∧ async_source_find exactAfterSubState "news" "input" =
        FindResult.dispatch (async_source_start "w2" "input") := by
  refine ⟨⟨by decide, by decide, by decide⟩, ?_⟩
  exact (async_source_find_resolution exactAfterSubState "news" "input"
    (by decide) (by decide)).1 ("w2", ⟨newsItem, SourceType.input⟩) (by decide)

/-- Catalog item Newsroom: the first substring match for news. -/
def newsroomItem : SourceItem := ⟨some "Newsroom", none, some "u1", none⟩

/-- Catalog item Anews: a later substring match for news. -/
def anewsItem : SourceItem := ⟨some "Anews", none, some "u2", none⟩

/-- A catalog with two substring matches for news and no exact match. -/
def twoSubState : Coordinator :=
  { initialState with
    source_map :=
      [("u1", ⟨newsroomItem, SourceType.input⟩),
       ("u2", ⟨anewsItem, SourceType.input⟩)] }

/-- Counterexample to C1 as stated: with no exact match and two substring
matches, the first substring match in insertion order is the Newsroom entry
at u1, yet the resolver dispatches to u2, the last substring match. -/
theorem async_source_find_first_substring_counterexample :
    twoSubState.source_map.find?
        (isExactMatch twoSubState.enable_user_labels "news" "input") = none
    ∧ twoSubState.source_map.find?
        (isSubMatch twoSubState.enable_user_labels "news" "input") =
      some ("u1", ⟨newsroomItem, SourceType.input⟩)
    ∧ async_source_find twoSubState "news" "input" =
        FindResult.dispatch (DeviceCall.setPlayContent "u2")
    ∧ FindResult.dispatch (DeviceCall.setPlayContent "u2") ≠
        FindResult.dispatch (DeviceCall.setPlayContent "u1") := by
  refine ⟨by decide, by decide, by decide, by decide⟩

/-! ## Catalog invariants (C4) -/

theorem contains_eq_false_iff (l : List String) (a : String) :
    l.contains a = false ↔ a ∉ l := by
  simp [List.contains, List.elem_eq_mem]

theorem dictInsert_map_replace_fst (m : List (String × CatalogEntry)) (k : String)
    (v : CatalogEntry) :
    (m.map (fun p => if p.1 == k then (k, v) else p)).map Prod.fst =
      m.map Prod.fst := by
  induction m with
  | nil => rfl
  | cons x rest ih =>
    simp only [List.map_cons, ih]
    congr 1
    cases h : (x.1 == k) with
    | true =>
      simp only [h, if_true]
      exact (eq_of_beq h).symm
    | false => simp [h]

theorem dictInsert_fst (m : List (String × CatalogEntry)) (k : String)
    (v : CatalogEntry) :
    (dictInsert m k v).map Prod.fst =
      if m.any (fun p => p.1 == k) then m.map Prod.fst
      else m.map Prod.fst ++ [k] := by
  unfold dictInsert
  split
  · exact dictInsert_map_replace_fst m k v
  · simp

theorem any_key_eq_false_not_mem {m : List (String × CatalogEntry)} {k : String}
    (h : m.any (fun p => p.1 == k) = false) : k ∉ m.map Prod.fst := by
  rw [List.any_eq_false] at h
  intro hk
  obtain ⟨p, hp, rfl⟩ := List.mem_map.mp hk
  exact h p hp (by simp)

theorem dictInsert_keys_nodup (m : List (String × CatalogEntry)) (k : String)
    (v : CatalogEntry) (h : (m.map Prod.fst).Nodup) :
    ((dictInsert m k v).map Prod.fst).Nodup := by
  rw [dictInsert_fst]
  cases ha : m.any (fun p => p.1 == k) with
  | true => simpa [ha] using h
  | false =>
    simp only [ha, Bool.false_eq_true, if_false]
    rw [List.nodup_append]
    refine ⟨h, List.nodup_singleton k, ?_⟩
    intro a hma hsing
    obtain rfl := List.mem_singleton.mp hsing
    exact any_key_eq_false_not_mem ha hma

theorem dictInsert_keys_mono (m : List (String × CatalogEntry)) (k : String)
    (v : CatalogEntry) (a : String) (h : a ∈ m.map Prod.fst) :
    a ∈ (dictInsert m k v).map Prod.fst := by
  rw [dictInsert_fst]
  split
  · exact h
  · exact List.mem_append.mpr (Or.inl h)

theorem dictInsert_key_self (m : List (String × CatalogEntry)) (k : String)
    (v : CatalogEntry) : k ∈ (dictInsert m k v).map Prod.fst := by
  rw [dictInsert_fst]
  cases ha : m.any (fun p => p.1 == k) with
  | true =>
    simp only [ha, if_true]
    obtain ⟨p, hp, hb⟩ := List.any_eq_true.mp ha
    exact List.mem_map.mpr ⟨p, hp, eq_of_beq hb⟩
  | false =>
    simp only [ha, Bool.false_eq_true, if_false]
    exact List.mem_append.mpr (Or.inr (List.mem_singleton.mpr rfl))

theorem extendOne_enable (st : SourceType) (add : Bool) (s : Coordinator)
    (item : SourceItem) :
    (extendOne st add s item).enable_user_labels = s.enable_user_labels := by
  unfold extendOne
  dsimp only
  split
  · split <;> rfl
  · rfl

theorem extendOne_keys_nodup (st : SourceType) (add : Bool) (s : Coordinator)
    (item : SourceItem) (h : (s.source_map.map Prod.fst).Nodup) :
    ((extendOne st add s item).source_map.map Prod.fst).Nodup := by
  unfold extendOne
  dsimp only
  split
  · split
    · exact dictInsert_keys_nodup _ _ _ h
    · exact dictInsert_keys_nodup _ _ _ h
  · exact h

theorem extendOne_keys_mono (st : SourceType) (add : Bool) (s : Coordinator)
    (item : SourceItem) (a : String) (h : a ∈ s.source_map.map Prod.fst) :
    a ∈ (extendOne st add s item).source_map.map Prod.fst := by
  unfold extendOne
  dsimp only
  split
  · split
    · exact dictInsert_keys_mono _ _ _ _ h
    · exact dictInsert_keys_mono _ _ _ _ h
  · exact h

theorem extendOne_adds_key (st : SourceType) (add : Bool) (s : Coordinator)
    (item : SourceItem) (u : String) (hu : item.uri = some u) (hu0 : u ≠ "")
    (ht : truthy (resolveTitle s.enable_user_labels item) = true) :
    u ∈ (extendOne st add s item).source_map.map Prod.fst := by
  unfold extendOne
  dsimp only
  have hcond : (truthy (resolveTitle s.enable_user_labels item) &&
      truthy item.uri) = true := by
    rw [Bool.and_eq_true]
    refine ⟨ht, ?_⟩
    rw [hu]
    exact (truthy_some_iff u).mpr hu0
  simp only [hcond, if_true]
  simp only [hu, Option.getD_some]
  split
  · exact dictInsert_key_self _ _ _
  · exact dictInsert_key_self _ _ _

theorem extendOne_list_nodup (st : SourceType) (add : Bool) (s : Coordinator)
    (item : SourceItem) (h : s.source_list.Nodup) :
    (extendOne st add s item).source_list.Nodup := by
  unfold extendOne
  dsimp only
  cases hc1 : (truthy (resolveTitle s.enable_user_labels item) &&
      truthy item.uri) with
  | false =>
    simp only [hc1, Bool.false_eq_true, if_false]
    exact h
  | true =>
    simp only [hc1, if_true]
    cases hc2 : (add && !(s.source_list.contains
        ((resolveTitle s.enable_user_labels item).getD ""))) with
    | false =>
      simp only [hc2, Bool.false_eq_true, if_false]
      exact h
    | true =>
      simp only [hc2, if_true]
      rw [List.nodup_append]
      refine ⟨h, List.nodup_singleton _, ?_⟩
      intro a hma hsing
      obtain rfl := List.mem_singleton.mp hsing
      rw [Bool.and_eq_true] at hc2
      obtain ⟨-, hnc⟩ := hc2
      rw [Bool.not_eq_true'] at hnc
      exact (contains_eq_false_iff _ _).mp hnc hma

theorem extendOne_list_noadd (st : SourceType) (s : Coordinator)
    (item : SourceItem) :
    (extendOne st false s item).source_list = s.source_list := by
  unfold extendOne
  dsimp only
  split
  · rfl
  · rfl

theorem extendOne_list_sub (st : SourceType) (add : Bool) (s : Coordinator)
    (item : SourceItem) (t : String)
    (h : t ∈ (extendOne st add s item).source_list) :
    t ∈ s.source_list ∨ resolveTitle s.enable_user_labels item = some t := by
  unfold extendOne at h
  dsimp only at h
  cases hc1 : (truthy (resolveTitle s.enable_user_labels item) &&
      truthy item.uri) with
  | false =>
    rw [hc1] at h
    simp only [Bool.false_eq_true, if_false] at h
    exact Or.inl h
  | true =>
    rw [hc1] at h
    simp only [if_true] at h
    cases hc2 : (add && !(s.source_list.contains
        ((resolveTitle s.enable_user_labels item).getD ""))) with
    | false =>
      rw [hc2] at h
      simp only [Bool.false_eq_true, if_false] at h
      exact Or.inl h
    | true =>
      rw [hc2] at h
      simp only [if_true] at h
      rcases List.mem_append.mp h with hmem | hsing
      · exact Or.inl hmem
      · obtain rfl := List.mem_singleton.mp hsing
        rw [Bool.and_eq_true] at hc1
        obtain ⟨htru, -⟩ := hc1
        obtain ⟨sv, hsv, -⟩ := (truthy_eq_true_iff _).mp htru
        rw [hsv, Option.getD_some]
        exact Or.inr rfl

theorem foldl_extend_enable (st : SourceType) (add : Bool) :
    ∀ (l : List SourceItem) (s : Coordinator),
      (l.foldl (extendOne st add) s).enable_user_labels = s.enable_user_labels := by
  intro l
  induction l with
  | nil => intro s; rfl
  | cons a rest ih =>
    intro s
    rw [List.foldl_cons, ih, extendOne_enable]

theorem foldl_extend_keys_nodup (st : SourceType) (add : Bool) :
    ∀ (l : List SourceItem) (s : Coordinator),
      (s.source_map.map Prod.fst).Nodup →
      ((l.foldl (extendOne st add) s).source_map.map Prod.fst).Nodup := by
  intro l
  induction l with
  | nil => intro s h; exact h
  | cons a rest ih =>
    intro s h
    rw [List.foldl_cons]
    exact ih _ (extendOne_keys_nodup st add s a h)

theorem foldl_extend_keys_mono (st : SourceType) (add : Bool) :
    ∀ (l : List SourceItem) (s : Coordinator) (a : String),
      a ∈ s.source_map.map Prod.fst →
      a ∈ (l.foldl (extendOne st add) s).source_map.map Prod.fst := by
  intro l
  induction l with
  | nil => intro s a h; exact h
  | cons x rest ih =>
    intro s a h
    rw [List.foldl_cons]
    exact ih _ a (extendOne_keys_mono st add s x a h)

theorem foldl_extend_list_nodup (st : SourceType) (add : Bool) :
    ∀ (l : List SourceItem) (s : Coordinator),
      s.source_list.Nodup →
      (l.foldl (extendOne st add) s).source_list.Nodup := by
  intro l
  induction l with
  | nil => intro s h; exact h
  | cons a rest ih =>
    intro s h
    rw [List.foldl_cons]
    exact ih _ (extendOne_list_nodup st add s a h)

theorem foldl_extend_list_noadd (st : SourceType) :
    ∀ (l : List SourceItem) (s : Coordinator),
      (l.foldl (extendOne st false) s).source_list = s.source_list := by
  intro l
  induction l with
  | nil => intro s; rfl
  | cons a rest ih =>
    intro s
    rw [List.foldl_cons, ih, extendOne_list_noadd]

theorem foldl_extend_list_sub (st : SourceType) (add : Bool) :
    ∀ (l : List SourceItem) (s : Coordinator) (t : String),
      t ∈ (l.foldl (extendOne st add) s).source_list →
      t ∈ s.source_list ∨
        ∃ item ∈ l, resolveTitle s.enable_user_labels item = some t := by
  intro l
  induction l with
  | nil => intro s t h; exact Or.inl h
  | cons a rest ih =>
    intro s t h
    rw [List.foldl_cons] at h
    rcases ih (extendOne st add s a) t h with hmem | ⟨item, hitem, hres⟩
    · rcases extendOne_list_sub st add s a t hmem with h1 | h2
      · exact Or.inl h1
      · exact Or.inr ⟨a, List.mem_cons_self a rest, h2⟩
    · rw [extendOne_enable] at hres
      exact Or.inr ⟨item, List.mem_cons_of_mem a hitem, hres⟩

theorem foldl_extend_adds_key (st : SourceType) (add : Bool) :
    ∀ (l : List SourceItem) (s : Coordinator) (item : SourceItem) (u : String),
      item ∈ l → item.uri = some u → u ≠ "" →
      truthy (resolveTitle s.enable_user_labels item) = true →
      u ∈ (l.foldl (extendOne st add) s).source_map.map Prod.fst := by
  intro l
  induction l with
  | nil => intro s item u h; exact absurd h (List.not_mem_nil item)
  | cons a rest ih =>
    intro s item u hmem hu hu0 ht
    rw [List.foldl_cons]
    rcases List.mem_cons.mp hmem with rfl | hmem'
    · exact foldl_extend_keys_mono st add rest _ u
        (extendOne_adds_key st add s item u hu hu0 ht)
    · refine ih (extendOne st add s a) item u hmem' hu hu0 ?_
      rw [extendOne_enable]
      exact ht

/-- Claim C4: after a catalog build from any device query results, source_map
keys (uris) are unique; source_list has no duplicate titles; every title in
source_list is the resolved display title of some INPUT entry (so APP and
CHANNEL entries never appear there); and every APP or CHANNEL entry with a
truthy resolved title and uri is indexed in source_map. -/
theorem catalog_build_invariants (c : Client) (s : Coordinator)
    (inputs apps channels : List SourceItem)
    (hin : c.externalStatusRes = Except.ok inputs)
    (hap : c.appListRes = Except.ok apps)
    (hch : c.contentListRes = Except.ok channels) :
    ((updateSourcesStep c s).1.source_map.map Prod.fst).Nodup
    ∧ (updateSourcesStep c s).1.source_list.Nodup
    ∧ (∀ t ∈ (updateSourcesStep c s).1.source_list, ∃ item ∈ inputs,
        resolveTitle s.enable_user_labels item = some t)
    ∧ (∀ item : SourceItem, (item ∈ apps ∨ item ∈ channels) →
        ∀ u : String, item.uri = some u → u ≠ "" →
        truthy (resolveTitle s.enable_user_labels item) = true →
        u ∈ (updateSourcesStep c s).1.source_map.map Prod.fst) := by
  have hstep : (updateSourcesStep c s).1 =
      channels.foldl (extendOne SourceType.channel false)
        ((sortByTitle apps).foldl (extendOne SourceType.app false)
          (inputs.foldl (extendOne SourceType.input true)
            { s with source_list := [], source_map := [] })) := by
    simp [updateSourcesStep, hin, hap, hch, _sources_extend]
  rw [hstep]
  set s0 : Coordinator := { s with source_list := [], source_map := [] } with hs0
  set sA : Coordinator := inputs.foldl (extendOne SourceType.input true) s0 with hA
  set sB : Coordinator :=
    (sortByTitle apps).foldl (extendOne SourceType.app false) sA with hB
  have hen0 : s0.enable_user_labels = s.enable_user_labels := rfl
  have henA : sA.enable_user_labels = s.enable_user_labels := by
    rw [hA, foldl_extend_enable]
  have henB : sB.enable_user_labels = s.enable_user_labels := by
    rw [hB, foldl_extend_enable, henA]
  have hmap0 : (s0.source_map.map Prod.fst).Nodup := List.nodup_nil
  have hlist0 : s0.source_list.Nodup := List.nodup_nil
  refine ⟨?_, ?_, ?_, ?_⟩
  · exact foldl_extend_keys_nodup _ _ channels sB
      (foldl_extend_keys_nodup _ _ (sortByTitle apps) sA
        (foldl_extend_keys_nodup _ _ inputs s0 hmap0))
  · exact foldl_extend_list_nodup _ _ channels sB
      (foldl_extend_list_nodup _ _ (sortByTitle apps) sA
        (foldl_extend_list_nodup _ _ inputs s0 hlist0))
  · intro t ht
    rw [foldl_extend_list_noadd, foldl_extend_list_noadd] at ht
    rcases foldl_extend_list_sub _ _ inputs s0 t ht with hmem | ⟨item, hitem, hres⟩
    · exact absurd hmem (List.not_mem_nil t)
    · rw [hen0] at hres
      exact ⟨item, hitem, hres⟩
  · intro item hmem u hu hu0 ht
    rcases hmem with happ | hchan
    · have hmemSorted : item ∈ sortByTitle apps := by
        unfold sortByTitle
        exact (List.perm_insertionSort _ apps).mem_iff.mpr happ
      refine foldl_extend_keys_mono _ _ channels sB u ?_
      refine foldl_extend_adds_key _ _ (sortByTitle apps) sA item u hmemSorted hu hu0 ?_
      rw [henA]
      exact ht
    · refine foldl_extend_adds_key _ _ channels sB item u hchan hu hu0 ?_
      rw [henB]
      exact ht

/-- Input items for the catalog-build witness, one of them labelled. -/
def catInputs : List SourceItem :=
  [⟨some "HDMI 1", some "Game Console", some "extInput:hdmi1", none⟩,
   ⟨some "HDMI 2", none, some "extInput:hdmi2", none⟩]

/-- App items for the catalog-build witness. -/
def catApps : List SourceItem :=
  [⟨some "Netflix", none, some "com.sony.dtv.netflix", none⟩]

/-- Channel items for the catalog-build witness. -/
def catChannels : List SourceItem :=
  [⟨some "News", none, some "tv:1", some "1"⟩]

/-- A client serving the witness catalog. -/
def catClient : Client where
  connectRes := .ok ()
  powerStatusRes := .ok "active"
  systemInfoRes := .ok []
  volumeInfoRes := .ok ⟨none, none, none⟩
  playingInfoRes := .ok emptyPlaying
  externalStatusRes := .ok catInputs
  appListRes := .ok catApps
  contentListRes := .ok catChannels

/-- Witness for C4 on a concrete catalog with inputs, an app and a channel. -/
theorem catalog_build_invariants_witness :
    (catClient.externalStatusRes = Except.ok catInputs
      ∧ catClient.appListRes = Except.ok catApps
      ∧ catClient.contentListRes = Except.ok catChannels)
    ∧ ((updateSourcesStep catClient initialState).1.source_map.map Prod.fst).Nodup
    ∧ (updateSourcesStep catClient initialState).1.source_list.Nodup
    ∧ (∃ item ∈ catInputs,
        resolveTitle initialState.enable_user_labels item = some "HDMI 2")
    ∧ "tv:1" ∈ (updateSourcesStep catClient initialState).1.source_map.map
        Prod.fst := by
  have h := catalog_build_invariants catClient initialState catInputs catApps
    catChannels rfl rfl rfl
  refine ⟨⟨rfl, rfl, rfl⟩, h.1, h.2.1, ?_, ?_⟩
  · exact h.2.2.1 "HDMI 2" (by decide)
  · exact h.2.2.2 ⟨some "News", none, some "tv:1", some "1"⟩
      (Or.inr (by decide)) "tv:1" rfl (by decide) (by decide)

end Bravia
